import Mathlib

/-!
Verification of the snapshot/ref/locator subsystem and session daemon of
`agent-device`, by a shallow embedding of the TypeScript sources
(`src/utils/finders.ts`, `src/utils/retry.ts`, the AX snapshot capturer and
the daemon request handler) into Lean.
-/

namespace AgentDevice

/-! ### Basic data model -/

/-- A rectangle as used for node geometry (`SnapshotRect` in the source).
Coordinates are modelled as rationals (exact arithmetic on JS numbers in the
operations at issue: addition, subtraction, `min`, comparisons). -/
structure Rect where
  x : ℚ
  y : ℚ
  width : ℚ
  height : ℚ
deriving Repr, DecidableEq

/-- A flattened snapshot node (`SnapshotNode` in the source); all fields are
optional, matching the TypeScript optional fields. -/
structure SnapshotNode where
  ref : Option String := none
  index : Option Nat := none
  depth : Option Nat := none
  type : Option String := none
  label : Option String := none
  value : Option String := none
  identifier : Option String := none
  rect : Option Rect := none
  hittable : Option Bool := none
  enabled : Option Bool := none
deriving Repr, DecidableEq

/-! ### `src/utils/finders.ts` -/

/-- The locator modes of `FindLocator`. -/
inductive FindLocator where
  | any | text | label | value | role | id
deriving Repr, DecidableEq

/-! Strings are manipulated through their character lists, with structural
recursion throughout (the JS string primitives act on character
sequences). -/

/-- JS `String.prototype.trim` on a character list: drop whitespace from
both ends. -/
def trimChars (l : List Char) : List Char :=
  ((l.dropWhile Char.isWhitespace).reverse.dropWhile Char.isWhitespace).reverse

/-- The regex replacement `replace(/\s+/g, ' ')`: every maximal whitespace
run becomes a single space. -/
def collapseRuns : List Char → List Char
  | [] => []
  | [c] => if c.isWhitespace then [' '] else [c]
  | c :: d :: rest =>
      if c.isWhitespace then
        if d.isWhitespace then collapseRuns (d :: rest)
        else ' ' :: collapseRuns (d :: rest)
      else c :: collapseRuns (d :: rest)

/-- JS `String.prototype.trim`. -/
def strTrim (s : String) : String :=
  ⟨trimChars s.data⟩

/-- JS `String.prototype.toLowerCase` (ASCII range). -/
def strToLower (s : String) : String :=
  ⟨s.data.map Char.toLower⟩

/-- `normalizeText` from `finders.ts`: trim, lowercase, collapse whitespace
runs to single spaces (`value.trim().toLowerCase().replace(/\s+/g, ' ')`). -/
def normalizeText (value : String) : String :=
  ⟨collapseRuns ((trimChars value.data).map Char.toLower)⟩

/-- Whether `sub` occurs contiguously in `l`. -/
def includesChars (sub : List Char) : List Char → Bool
  | [] => sub.isEmpty
  | c :: rest => sub.isPrefixOf (c :: rest) || includesChars sub rest

/-- JS `String.prototype.includes`: `sub` occurs contiguously in `s`
(always true for the empty `sub`). -/
def strIncludes (s sub : String) : Bool :=
  includesChars sub.data s.data

/-- JS `String.prototype.startsWith`. -/
def strStartsWith (s pat : String) : Bool :=
  pat.data.isPrefixOf s.data

/-- JS `String.prototype.split` with a one-character separator. -/
def splitOnChar (sep : Char) : List Char → List (List Char)
  | [] => [[]]
  | c :: rest =>
      if c = sep then [] :: splitOnChar sep rest
      else
        match splitOnChar sep rest with
        | [] => [[c]]
        | seg :: segs => (c :: seg) :: segs

/-- Left-to-right non-overlapping removal of every occurrence of `pat`
(the regex replacement `replace(/pat/g, '')`), with fuel for structural
recursion (each step consumes at least one character, so `fuel = l.length`
suffices). -/
def removeAllGo (pat : List Char) : Nat → List Char → List Char
  | _, [] => []
  | 0, l => l
  | fuel + 1, c :: rest =>
      if pat.isPrefixOf (c :: rest) then
        removeAllGo pat fuel ((c :: rest).drop pat.length)
      else c :: removeAllGo pat fuel rest

def removeAll (pat l : List Char) : List Char :=
  removeAllGo pat l.length l

/-- `normalizeRole` from `finders.ts`: trim; take the last dot-separated
segment; strip every occurrence of `XCUIElementType` case-insensitively and
lowercase (equivalently: lowercase, then remove all `xcuielementtype`);
drop a leading `ax`. -/
def normalizeRole (value : String) : String :=
  let trimmed := trimChars value.data
  if trimmed = [] then ""
  else
    let lastSegment := ((splitOnChar '.' trimmed).getLast?).getD trimmed
    let normalized := removeAll "xcuielementtype".data (lastSegment.map Char.toLower)
    if ("ax".data).isPrefixOf normalized then ⟨normalized.drop 2⟩
    else ⟨normalized⟩

/-- `matchText` from `finders.ts`. -/
def matchText (value : Option String) (query : String) : Nat :=
  let normalized := normalizeText (value.getD "")
  if normalized = "" then 0
  else if normalized = query then 2
  else if strIncludes normalized query then 1
  else 0

/-- `matchRole` from `finders.ts`. -/
def matchRole (value : Option String) (query : String) : Nat :=
  let normalized := normalizeRole (value.getD "")
  if normalized = "" then 0
  else if normalized = query then 2
  else if strIncludes normalized query then 1
  else 0

/-- `matchNode` from `finders.ts`. -/
def matchNode (node : SnapshotNode) (locator : FindLocator) (query : String) :
    Nat :=
  match locator with
  | .role => matchRole node.type query
  | .label => matchText node.label query
  | .value => matchText node.value query
  | .id => matchText node.identifier query
  | .text | .any =>
      max (matchText node.label query)
        (max (matchText node.value query) (matchText node.identifier query))

/-- The scan loop of `findNodeByLocator`: walk the nodes tracking the best
`(node, score)` pair; a score `≥ 2` breaks immediately after updating. -/
def findNodeByLocatorGo (locator : FindLocator) (query : String)
    (requireRect : Bool) :
    List SnapshotNode → Option (SnapshotNode × Nat) → Option SnapshotNode
  | [], best => best.map (fun b => b.1)
  | node :: rest, best =>
      if requireRect ∧ node.rect = none then
        findNodeByLocatorGo locator query requireRect rest best
      else
        let score := matchNode node locator query
        if score ≤ 0 then findNodeByLocatorGo locator query requireRect rest best
        else
          match best with
          | some b =>
              if score > b.2 then
                if score ≥ 2 then some node
                else findNodeByLocatorGo locator query requireRect rest
                  (some (node, score))
              else findNodeByLocatorGo locator query requireRect rest best
          | none =>
              if score ≥ 2 then some node
              else findNodeByLocatorGo locator query requireRect rest
                (some (node, score))

/-- `findNodeByLocator` from `finders.ts`. -/
def findNodeByLocator (nodes : List SnapshotNode) (locator : FindLocator)
    (query : String) (requireRect : Bool := false) : Option SnapshotNode :=
  let normalizedQuery := normalizeText query
  if normalizedQuery = "" then none
  else findNodeByLocatorGo locator normalizedQuery requireRect nodes none

/-- The selection rule of `findNodeByLocator` as the specification words it:
skip nodes lacking geometry when `requireRect` is set; the first node scoring
2 (exact) wins; otherwise the first-seen highest-scoring substring candidate;
null when no node scores above 0.  Scoring per node follows the spec: exact
normalized match = 2, substring match = 1, otherwise 0; `any`/`text` take the
maximum across label, value and identifier; `role` scores the normalized
type; `label`/`value`/`id` score the single corresponding field. -/
def specFieldScore (field : Option String) (q : String) : Nat :=
  let v := normalizeText (field.getD "")
  if v ≠ "" ∧ v = q then 2
  else if v ≠ "" ∧ strIncludes v q then 1
  else 0

def specRoleScore (field : Option String) (q : String) : Nat :=
  let v := normalizeRole (field.getD "")
  if v ≠ "" ∧ v = q then 2
  else if v ≠ "" ∧ strIncludes v q then 1
  else 0

def specScore (locator : FindLocator) (q : String) (n : SnapshotNode) : Nat :=
  match locator with
  | .role => specRoleScore n.type q
  | .label => specFieldScore n.label q
  | .value => specFieldScore n.value q
  | .id => specFieldScore n.identifier q
  | .any | .text =>
      max (specFieldScore n.label q)
        (max (specFieldScore n.value q) (specFieldScore n.identifier q))

def findNodeByLocatorSpec (nodes : List SnapshotNode) (locator : FindLocator)
    (query : String) (requireRect : Bool := false) : Option SnapshotNode :=
  let q := normalizeText query
  if q = "" then none
  else
    let eligible := nodes.filter (fun n => !(requireRect && n.rect.isNone))
    match eligible.find? (fun n => specScore locator q n == 2) with
    | some n => some n
    | none => eligible.find? (fun n => specScore locator q n == 1)

/-! ### `src/utils/retry.ts` -/

/-- An `AppError` as in `src/utils/errors.ts`, with the detail fields the
verified code paths read; `retryable` models `details?.retryable === true`
(absent ↦ `false`). -/
structure AppError where
  code : String
  message : String
  stderr : Option String := none
  stdout : Option String := none
  retryable : Bool := false
deriving Repr, DecidableEq

/-- The loop of `withRetry`, with `attempt` the 1-based attempt counter and
`fuel` the structural-recursion fuel (`attempts - attempt + 1` at entry; the
`fuel = 0` case is unreachable while `attempt ≤ attempts`).  The `fn`
argument gives each attempt's outcome; the second component of the result
counts invocations of `fn`.  `.error none` models falling out of the loop
with no caught error (the trailing generic `AppError('COMMAND_FAILED',
'retry failed')`); `.error (some e)` models re-throwing the last error. -/
def withRetryGo {ε α : Type} (fn : Nat → Except ε α)
    (sr : Option (ε → Nat → Bool)) (attempts : Nat) :
    Nat → Nat → Except (Option ε) α × Nat
  | _, 0 => (Except.error none, 0)
  | attempt, fuel + 1 =>
      match fn attempt with
      | .ok v => (.ok v, 1)
      | .error e =>
          if attempts ≤ attempt then (.error (some e), 1)
          else
            match sr with
            | some p =>
                if p e attempt then
                  let r := withRetryGo fn sr attempts (attempt + 1) fuel
                  (r.1, r.2 + 1)
                else (.error (some e), 1)
            | none =>
                let r := withRetryGo fn sr attempts (attempt + 1) fuel
                (r.1, r.2 + 1)

/-- `withRetry` from `retry.ts` (delays elided: they do not affect the
result value or the call count).  `attempts = 0` never enters the loop, so
`lastError` is unset and the generic error (`.error none`) is thrown. -/
def withRetry {ε α : Type} (fn : Nat → Except ε α)
    (sr : Option (ε → Nat → Bool)) (attempts : Nat := 3) :
    Except (Option ε) α × Nat :=
  if attempts = 0 then (Except.error none, 0)
  else withRetryGo fn sr attempts 1 attempts

/-- `computeDelay` from `retry.ts`; `rand` stands for the `Math.random()`
sample (in `[0, 1)`). -/
def computeDelay (base maxDelay jitter : ℚ) (attempt : Nat) (rand : ℚ) : ℚ :=
  let e := min maxDelay (base * 2 ^ (attempt - 1))
  let jitterAmount := e * jitter
  max 0 (e + (rand * 2 - 1) * jitterAmount)

/-! ### AX snapshot capturer (`snapshotAx` and helpers) -/

/-- A device handle (`DeviceInfo`). -/
structure DeviceInfo where
  platform : String
  kind : String
  name : String
  id : String
deriving Repr, DecidableEq

/-- A raw accessibility node as decoded from the helper's JSON (`AXNode`). -/
inductive AXNode where
  | node (role subrole label value identifier : Option String)
      (frame : Option Rect) (children : List AXNode)

def AXNode.frame : AXNode → Option Rect
  | .node _ _ _ _ _ f _ => f

def AXNode.children : AXNode → List AXNode
  | .node _ _ _ _ _ _ cs => cs

/-- A flattened AX node, as pushed by the `walk` closure in `snapshotAx`
(children dropped, depth attached). -/
structure FlatAxNode where
  role : Option String := none
  subrole : Option String := none
  label : Option String := none
  value : Option String := none
  identifier : Option String := none
  frame : Option Rect := none
  depth : Nat := 0
deriving Repr, DecidableEq

mutual

/-- The pre-order traversal underlying the `walk` closure of `snapshotAx`:
every visited node paired with its depth, in visit order.  The subtracted
node list and the frame-sample list are per-node images of this traversal. -/
def flattenAx : AXNode → Nat → List (AXNode × Nat)
  | .node r s l v i fr cs, depth =>
      (AXNode.node r s l v i fr cs, depth) :: flattenAxList cs (depth + 1)

def flattenAxList : List AXNode → Nat → List (AXNode × Nat)
  | [], _ => []
  | c :: cs, depth => flattenAx c depth ++ flattenAxList cs depth

end

/-- The frame translation applied per node inside `walk`:
`node.frame && rootFrame ? {x: node.frame.x - rootFrame.x, ...} : node.frame`. -/
def subtractFrame (rootFrame : Option Rect) (fr : Option Rect) : Option Rect :=
  match fr, rootFrame with
  | some f, some rf => some ⟨f.x - rf.x, f.y - rf.y, f.width, f.height⟩
  | _, _ => fr

def flatOfRaw (frameOf : Option Rect → Option Rect) (p : AXNode × Nat) :
    FlatAxNode :=
  match p.1 with
  | .node r s l v i fr _ => ⟨r, s, l, v, i, frameOf fr, p.2⟩

/-- The `nodes` array built by `walk`: pre-order, frames translated by the
root frame. -/
def walkAx (rootFrame : Option Rect) (t : AXNode) : List FlatAxNode :=
  (flattenAx t 0).map (flatOfRaw (subtractFrame rootFrame))

/-- The `frameSamples` array built by `walk`: every visited node's original
(pre-subtraction) frame, in visit order. -/
def axFrameSamples (t : AXNode) : List Rect :=
  (flattenAx t 0).filterMap (fun p => p.1.frame)

/-- The flattened node list with the original (untranslated) frames: what
`walk` would produce without the root-frame subtraction.  Adding the origin
back to a subtracted frame recovers exactly this. -/
def axOriginalNodes (t : AXNode) : List FlatAxNode :=
  (flattenAx t 0).map (flatOfRaw (fun fr => fr))

/-- Frame translation used by the `nearZero` branch of `normalizeFrames`:
add the origin's `(x, y)` back. -/
def addBackFrame (origin : Rect) (fr : Option Rect) : Option Rect :=
  fr.map (fun f => ⟨f.x + origin.x, f.y + origin.y, f.width, f.height⟩)

/-- `normalizeFrames` from the AX capturer: no-op without an origin frame or
samples; otherwise, when the minimum sampled `(x, y)` is within 5 px of zero
in both axes, add the origin back to every node's frame, else keep the nodes
as given.  (The JS fold starts from `+∞`; over a nonempty list that equals
folding `min` from the head's coordinate.) -/
def normalizeFrames (nodes : List FlatAxNode) (originFrame : Option Rect)
    (frames : List Rect) : List FlatAxNode :=
  match originFrame, frames with
  | some origin, f :: fs =>
      let minX := (f :: fs).foldl (fun m fr => min m fr.x) f.x
      let minY := (f :: fs).foldl (fun m fr => min m fr.y) f.y
      if minX ≤ 5 ∧ minY ≤ 5 then
        nodes.map (fun n => { n with frame := addBackFrame origin n.frame })
      else nodes
  | _, _ => nodes

/-- `tree.frame ?? originFrame` in `snapshotAx`. -/
def rootFrameOf (tree : AXNode) (originFrame : Option Rect) : Option Rect :=
  match tree.frame with
  | some f => some f
  | none => originFrame

/-- The normalization pipeline of `snapshotAx` after JSON decoding: walk
(subtracting the root frame), then `normalizeFrames` over the collected
samples. -/
def axNormalizedNodes (tree : AXNode) (originFrame : Option Rect) :
    List FlatAxNode :=
  normalizeFrames (walkAx (rootFrameOf tree originFrame) tree)
    (rootFrameOf tree originFrame) (axFrameSamples tree)

/-- The final `mapped` projection of `snapshotAx` (`index`, `type :=
subrole ?? role`, `rect := frame`). -/
def axMappedNodes (tree : AXNode) (originFrame : Option Rect) :
    List SnapshotNode :=
  (axNormalizedNodes tree originFrame).enum.map (fun p =>
    { index := some p.1
      type := match p.2.subrole with
        | some s => some s
        | none => p.2.role
      label := p.2.label
      value := p.2.value
      identifier := p.2.identifier
      rect := p.2.frame
      depth := some p.2.depth })

/-- `axHintFromStderr` from the AX capturer. -/
def axHintFromStderr (stderrText : String) : String :=
  let lower := strToLower stderrText
  if strIncludes lower "accessibility permission" then
    " Enable Accessibility for your terminal in System Settings > Privacy & Security > Accessibility, or use --backend xctest (slower snapshots via XCTest)."
  else if strIncludes lower "could not find ios app content" then
    " AX snapshot sometimes caches empty content. Try restarting the Simulator app."
  else ""

/-- `isRetryableAxError` from the AX capturer: the stderr text, lowercased,
contains a recognized transient marker. -/
def isRetryableAxError (stderrText : String) : Bool :=
  let lower := strToLower stderrText
  strIncludes lower "could not find ios app content" || strIncludes lower "timeout"

/-- `isRetryableError` from the AX capturer: an `AppError` with code
`COMMAND_FAILED` whose `details.retryable === true`.  (Within `snapshotAx`
every error raised by an attempt is such an `AppError`, so the
`instanceof` test is modelled by the type.) -/
def isRetryableError (e : AppError) : Bool :=
  e.code == "COMMAND_FAILED" && e.retryable

/-- Result of one spawn of the helper binary. -/
structure RunResult where
  exitCode : Int
  stdout : String
  stderr : String
deriving Repr, DecidableEq

/-- The shapes `JSON.parse(result.stdout)` can produce in `snapshotAx`: a
plain root node, or a wrapper object carrying the `root` key (optional) and
a window frame. -/
inductive AxPayload where
  | plain (tree : AXNode)
  | wrapped (root : Option AXNode) (windowFrame : Option Rect)

/-- Environment oracles for `snapshotAx`: the outcome of
`ensureAxSnapshotBinary`, the outcome of spawning the helper on each
(1-based) attempt, and the JSON decoding of a stdout string (`none` models
a `JSON.parse` throw). -/
structure AxEnv where
  binary : Except AppError String
  run : Nat → RunResult
  decode : String → Option AxPayload

/-- The error thrown for non-zero helper exit: `COMMAND_FAILED`, stderr
augmented with the hint, and the `retryable` detail flag computed by
`isRetryableAxError`. -/
def axAttemptError (r : RunResult) : AppError :=
  { code := "COMMAND_FAILED", message := "AX snapshot failed",
    stderr := some (r.stderr ++ axHintFromStderr r.stderr),
    stdout := some r.stdout,
    retryable := isRetryableAxError r.stderr }

/-- One attempt body of the retry loop in `snapshotAx`. -/
def axAttempt (env : AxEnv) (attempt : Nat) : Except AppError RunResult :=
  let r := env.run attempt
  if r.exitCode ≠ 0 then .error (axAttemptError r) else .ok r

def unsupportedAxError : AppError :=
  { code := "UNSUPPORTED_OPERATION",
    message := "AX snapshot is only supported on iOS simulators" }

def genericRetryError : AppError :=
  { code := "COMMAND_FAILED", message := "retry failed" }

def invalidAxJsonError : AppError :=
  { code := "COMMAND_FAILED", message := "Invalid AX snapshot JSON" }

/-- The decode step of `snapshotAx` after the retry loop: parse failure or a
wrapper without `root` raises the fatal invalid-JSON error. -/
def decodeAxPayload (decode : String → Option AxPayload) (stdout : String) :
    Except AppError (AXNode × Option Rect) :=
  match decode stdout with
  | none => .error invalidAxJsonError
  | some (.plain t) => .ok (t, none)
  | some (.wrapped none _) => .error invalidAxJsonError
  | some (.wrapped (some t) wf) => .ok (t, wf)

/-- `snapshotAx` after the platform guard: resolve the binary, run the
helper through `withRetry` (3 attempts, `shouldRetry := isRetryableError`),
decode, normalize.  The second component counts helper invocations. -/
def snapshotAxAfterGuard (env : AxEnv) :
    Except AppError (List SnapshotNode) × Nat :=
  match env.binary with
  | .error e => (.error e, 0)
  | .ok _ =>
      let retry := withRetry (axAttempt env) (some (fun e _ => isRetryableError e)) 3
      match retry.1 with
      | .error none => (.error genericRetryError, retry.2)
      | .error (some e) => (.error e, retry.2)
      | .ok r =>
          match decodeAxPayload env.decode r.stdout with
          | .error e => (.error e, retry.2)
          | .ok (tree, originFrame) =>
              (.ok (axMappedNodes tree originFrame), retry.2)

/-- `snapshotAx`: the platform/device-kind guard, then the capture
pipeline. -/
def snapshotAx (device : DeviceInfo) (env : AxEnv) :
    Except AppError (List SnapshotNode) × Nat :=
  if device.platform = "ios" ∧ device.kind = "simulator" then
    snapshotAxAfterGuard env
  else (.error unsupportedAxError, 0)

/-! ### Ref assignment and resolution (`src/utils/snapshot.ts`)

The file `src/utils/snapshot.ts` itself is not part of the provided
sources (only its callers are), so these four functions are modelled from
the specification's component design (§4.4). -/

/-- The ref token for a positional index: `"e" + index` in decimal. -/
def refOfIndex (i : Nat) : String :=
  "e" ++ Nat.repr i

/-- Modelled from the spec: `attachRefs` from the missing
`src/utils/snapshot.ts` — assigns `ref = "e" + positionalIndex` to
every node in the given order.  `attachRefsGo k` assigns refs starting at
index `k`. -/
def attachRefsGo (k : Nat) : List SnapshotNode → List SnapshotNode
  | [] => []
  | n :: rest => { n with ref := some (refOfIndex k) } :: attachRefsGo (k + 1) rest

def attachRefs (nodes : List SnapshotNode) : List SnapshotNode :=
  attachRefsGo 0 nodes

/-- Modelled from the spec: `normalizeRef` from the missing
`src/utils/snapshot.ts` — "accepts forms with or without a leading `@`;
returns null for empty/invalid input". -/
def normalizeRef (input : String) : Option String :=
  let s : String :=
    if strStartsWith input "@" then ⟨input.data.drop 1⟩ else input
  if s = "" then none else some s

/-- Modelled from the spec: `findNodeByRef` from the missing
`src/utils/snapshot.ts` — "linear lookup by exact ref match; returns null
if absent". -/
def findNodeByRef (nodes : List SnapshotNode) (ref : String) :
    Option SnapshotNode :=
  nodes.find? (fun n => n.ref == some ref)

/-- Modelled from the spec: `centerOfRect` from the missing
`src/utils/snapshot.ts` — "returns the geometric center". -/
def centerOfRect (r : Rect) : ℚ × ℚ :=
  (r.x + r.width / 2, r.y + r.height / 2)

/-! ### Decimal digits (helpers for reasoning about `Nat.repr`) -/

/-- The decimal digit list of a natural number (most significant first);
agrees with `Nat.toDigits 10`. -/
def decDigits (n : Nat) : List Char :=
  if n < 10 then [Nat.digitChar n]
  else decDigits (n / 10) ++ [Nat.digitChar (n % 10)]
decreasing_by exact Nat.div_lt_self (by omega) (by omega)

/-- Numeric value of a decimal digit character. -/
def digitVal (c : Char) : Nat := c.toNat - 48

/-- Value of a digit list read most-significant-first. -/
def valOfDigits (l : List Char) : Nat :=
  l.foldl (fun acc c => acc * 10 + digitVal c) 0

/-! ### The session daemon (`handleRequest`) -/

/-- The `data` record returned by `dispatchCommand` as the daemon reads it
(`nodes` and `truncated` for `snapshot`; opaque otherwise). -/
structure JsonData where
  nodes : List SnapshotNode := []
  truncated : Bool := false
deriving Repr, DecidableEq

/-- `SnapshotState` stored on a session. -/
structure SnapshotState where
  nodes : List SnapshotNode
  truncated : Option Bool
  createdAt : Nat
deriving Repr, DecidableEq

/-- `SessionState` held in the daemon's session map. -/
structure SessionState where
  name : String
  device : DeviceInfo
  createdAt : Nat
  appBundleId : Option String := none
  snapshot : Option SnapshotState := none
deriving Repr, DecidableEq

/-- A request line as decoded by the daemon. -/
structure DaemonRequest where
  token : String
  session : String
  command : String
  positionals : List String := []
deriving Repr, DecidableEq

structure ErrorInfo where
  code : String
  message : String
deriving Repr, DecidableEq

/-- The `data` payloads of the daemon's `ok` responses, one shape per
handled branch. -/
inductive RespData where
  | emptyData
  | sessionName (s : String)
  | sessionList (xs : List (String × String × String × String × Nat))
  | snapshotData (nodes : List SnapshotNode) (truncated : Bool)
  | clickData (ref : String) (x y : ℚ)
  | fillData (d : Option JsonData) (ref : String) (x y : ℚ)
  | attrsData (ref : String) (node : SnapshotNode)
  | textData (ref : String) (text : String) (node : SnapshotNode)
  | passthrough (d : Option JsonData)
deriving Repr, DecidableEq

/-- A `DaemonResponse`: `{ ok: true, data }` or `{ ok: false, error }`. -/
inductive DaemonResponse where
  | ok (data : RespData)
  | err (e : ErrorInfo)
deriving Repr, DecidableEq

/-- Observable side effects of one request, in order of occurrence. -/
inductive DaemonEvent where
  | dispatched (command : String) (positionals : List String)
  | stoppedRunner (deviceId : String)
  | sessionSet (name : String)
  | sessionDeleted (name : String)
deriving Repr, DecidableEq

/-- Collaborator oracles for `handleRequest`: the outcome of
`resolveTargetDevice`, the outcome of `dispatchCommand` per
command/positionals, the `resolveIosApp` result (already `none` on a caught
throw), and the current time. -/
structure DaemonEnv where
  resolveDevice : Except AppError DeviceInfo
  dispatch : String → List String → Except AppError (Option JsonData)
  resolveApp : Option String
  now : Nat

/-- `Map.get` on the session map (association list in insertion order). -/
def mapGet (m : List (String × SessionState)) (k : String) :
    Option SessionState :=
  (m.find? (fun p => p.1 == k)).map (fun p => p.2)

/-- `Map.set`: replace in place if the key exists, else append. -/
def mapSet (m : List (String × SessionState)) (k : String)
    (v : SessionState) : List (String × SessionState) :=
  if (m.find? (fun p => p.1 == k)).isSome then
    m.map (fun p => if p.1 == k then (k, v) else p)
  else m ++ [(k, v)]

/-- `Map.delete`. -/
def mapDelete (m : List (String × SessionState)) (k : String) :
    List (String × SessionState) :=
  m.filter (fun p => !(p.1 == k))

/-- The result of handling one request: the response (or a thrown
`AppError`, which the socket loop turns into an error response), the
updated session map, and the emitted side effects in order. -/
def HandleResult : Type :=
  Except AppError DaemonResponse × List (String × SessionState) × List DaemonEvent

/-- `handleRequest` from the daemon source, branch for branch.  The
`expectedToken` is the daemon's generated token; `env` supplies collaborator
outcomes.  A propagating exception leaves the session map untouched (no
branch mutates the map before its last fallible await). -/
def handleRequest (expectedToken : String) (env : DaemonEnv)
    (sessions : List (String × SessionState)) (req : DaemonRequest) :
    HandleResult :=
  if req.token ≠ expectedToken then
    (.ok (.err ⟨"UNAUTHORIZED", "Invalid token"⟩), sessions, [])
  else
    let sessionName := if req.session = "" then "default" else req.session
    if req.command = "session_list" then
      (.ok (.ok (.sessionList (sessions.map (fun p =>
        (p.2.name, p.2.device.platform, p.2.device.name, p.2.device.id,
          p.2.createdAt))))), sessions, [])
    else if req.command = "open" then
      match env.resolveDevice with
      | .error e => (.error e, sessions, [])
      | .ok device =>
          let appBundleId :=
            if device.platform = "ios" then env.resolveApp else none
          match env.dispatch "open" req.positionals with
          | .error e => (.error e, sessions,
              [.dispatched "open" req.positionals])
          | .ok _ =>
              (.ok (.ok (.sessionName sessionName)),
               mapSet sessions sessionName
                 ⟨sessionName, device, env.now, appBundleId, none⟩,
               [.dispatched "open" req.positionals, .sessionSet sessionName])
    else if req.command = "close" then
      match mapGet sessions sessionName with
      | none =>
          (.ok (.err ⟨"SESSION_NOT_FOUND", "No active session"⟩), sessions, [])
      | some session =>
          let closeStep : Except AppError Unit × List DaemonEvent :=
            if req.positionals ≠ [] then
              match env.dispatch "close" req.positionals with
              | .error e => (.error e, [.dispatched "close" req.positionals])
              | .ok _ => (.ok (), [.dispatched "close" req.positionals])
            else (.ok (), [])
          match closeStep with
          | (.error e, evs) => (.error e, sessions, evs)
          | (.ok _, evs) =>
              let stopEvs :=
                if session.device.platform = "ios" ∧
                    session.device.kind = "simulator" then
                  [DaemonEvent.stoppedRunner session.device.id]
                else []
              (.ok (.ok (.sessionName sessionName)),
               mapDelete sessions sessionName,
               evs ++ stopEvs ++ [.sessionDeleted sessionName])
    else if req.command = "snapshot" then
      let session := mapGet sessions sessionName
      let deviceE : Except AppError DeviceInfo :=
        match session with
        | some s => .ok s.device
        | none => env.resolveDevice
      match deviceE with
      | .error e => (.error e, sessions, [])
      | .ok device =>
          let appBundleId := session.bind (fun s => s.appBundleId)
          match env.dispatch "snapshot" [] with
          | .error e => (.error e, sessions, [.dispatched "snapshot" []])
          | .ok d =>
              let nodes := attachRefs ((d.map (fun j => j.nodes)).getD [])
              let truncatedOpt := d.map (fun j => j.truncated)
              let snap : SnapshotState := ⟨nodes, truncatedOpt, env.now⟩
              let createdAt :=
                match session with
                | some s => s.createdAt
                | none => env.now
              (.ok (.ok (.snapshotData nodes (truncatedOpt.getD false))),
               mapSet sessions sessionName
                 ⟨sessionName, device, createdAt, appBundleId, some snap⟩,
               [.dispatched "snapshot" [], .sessionSet sessionName])
    else if req.command = "click" then
      match (mapGet sessions sessionName).bind (fun s => s.snapshot) with
      | none =>
          (.ok (.err ⟨"INVALID_ARGS",
            "No snapshot in session. Run snapshot first."⟩), sessions, [])
      | some snap =>
          let refInput := (req.positionals.head?).getD ""
          match normalizeRef refInput with
          | none =>
              (.ok (.err ⟨"INVALID_ARGS", "click requires a ref like @e2"⟩),
               sessions, [])
          | some ref =>
              match (findNodeByRef snap.nodes ref).bind (fun n => n.rect) with
              | none =>
                  (.ok (.err ⟨"COMMAND_FAILED",
                    "Ref " ++ refInput ++ " not found or has no bounds"⟩),
                   sessions, [])
              | some rect =>
                  let c := centerOfRect rect
                  let args := [toString c.1, toString c.2]
                  match env.dispatch "press" args with
                  | .error e => (.error e, sessions, [.dispatched "press" args])
                  | .ok _ =>
                      (.ok (.ok (.clickData ref c.1 c.2)), sessions,
                       [.dispatched "press" args])
    else if req.command = "fill" ∧
        strStartsWith ((req.positionals.head?).getD "") "@" then
      match (mapGet sessions sessionName).bind (fun s => s.snapshot) with
      | none =>
          (.ok (.err ⟨"INVALID_ARGS",
            "No snapshot in session. Run snapshot first."⟩), sessions, [])
      | some snap =>
          let refInput := (req.positionals.head?).getD ""
          match normalizeRef refInput with
          | none =>
              (.ok (.err ⟨"INVALID_ARGS", "fill requires a ref like @e2"⟩),
               sessions, [])
          | some ref =>
              let text := String.intercalate " " req.positionals.tail
              if text = "" then
                (.ok (.err ⟨"INVALID_ARGS", "fill requires text after ref"⟩),
                 sessions, [])
              else
                match (findNodeByRef snap.nodes ref).bind (fun n => n.rect) with
                | none =>
                    (.ok (.err ⟨"COMMAND_FAILED",
                      "Ref " ++ refInput ++ " not found or has no bounds"⟩),
                     sessions, [])
                | some rect =>
                    let c := centerOfRect rect
                    let args := [toString c.1, toString c.2, text]
                    match env.dispatch "fill" args with
                    | .error e =>
                        (.error e, sessions, [.dispatched "fill" args])
                    | .ok d =>
                        (.ok (.ok (.fillData d ref c.1 c.2)), sessions,
                         [.dispatched "fill" args])
    else if req.command = "get" then
      let sub := (req.positionals.head?).getD ""
      if sub ≠ "text" ∧ sub ≠ "attrs" then
        (.ok (.err ⟨"INVALID_ARGS", "get only supports text or attrs"⟩),
         sessions, [])
      else
        match (mapGet sessions sessionName).bind (fun s => s.snapshot) with
        | none =>
            (.ok (.err ⟨"INVALID_ARGS",
              "No snapshot in session. Run snapshot first."⟩), sessions, [])
        | some snap =>
            let refInput := ((req.positionals.drop 1).head?).getD ""
            match normalizeRef refInput with
            | none =>
                (.ok (.err ⟨"INVALID_ARGS",
                  "get text requires a ref like @e2"⟩), sessions, [])
            | some ref =>
                match findNodeByRef snap.nodes ref with
                | none =>
                    (.ok (.err ⟨"COMMAND_FAILED",
                      "Ref " ++ refInput ++ " not found"⟩), sessions, [])
                | some node =>
                    if sub = "attrs" then
                      (.ok (.ok (.attrsData ref node)), sessions, [])
                    else
                      let candidates :=
                        ([node.label, node.value, node.identifier].map
                          (fun v => strTrim (v.getD ""))).filter
                            (fun s => s ≠ "")
                      let text := (candidates.head?).getD ""
                      (.ok (.ok (.textData ref text node)), sessions, [])
    else
      match mapGet sessions sessionName with
      | none =>
          (.ok (.err ⟨"SESSION_NOT_FOUND",
            "No active session. Run open first."⟩), sessions, [])
      | some _session =>
          match env.dispatch req.command req.positionals with
          | .error e =>
              (.error e, sessions, [.dispatched req.command req.positionals])
          | .ok d =>
              (.ok (.ok (.passthrough d)), sessions,
               [.dispatched req.command req.positionals])

/-! ## Helper lemmas -/

theorem matchText_le_two (v : Option String) (q : String) :
    matchText v q ≤ 2 := by
  unfold matchText
  dsimp only
  split_ifs <;> omega

theorem matchRole_le_two (v : Option String) (q : String) :
    matchRole v q ≤ 2 := by
  unfold matchRole
  dsimp only
  split_ifs <;> omega

theorem matchNode_le_two (n : SnapshotNode) (locator : FindLocator)
    (q : String) : matchNode n locator q ≤ 2 := by
  unfold matchNode
  cases locator <;>
    simp [matchText_le_two, matchRole_le_two]

theorem specFieldScore_eq_matchText (field : Option String) (q : String) :
    specFieldScore field q = matchText field q := by
  unfold specFieldScore matchText
  dsimp only
  by_cases h0 : normalizeText (field.getD "") = ""
  · simp [h0]
  · by_cases h1 : normalizeText (field.getD "") = q
    · have hq : ¬ q = "" := by rw [← h1]; exact h0
      simp [h0, h1, hq]
    · by_cases h2 : strIncludes (normalizeText (field.getD "")) q = true <;>
        simp [h0, h1, h2]

theorem specRoleScore_eq_matchRole (field : Option String) (q : String) :
    specRoleScore field q = matchRole field q := by
  unfold specRoleScore matchRole
  dsimp only
  by_cases h0 : normalizeRole (field.getD "") = ""
  · simp [h0]
  · by_cases h1 : normalizeRole (field.getD "") = q
    · have hq : ¬ q = "" := by rw [← h1]; exact h0
      simp [h0, h1, hq]
    · by_cases h2 : strIncludes (normalizeRole (field.getD "")) q = true <;>
        simp [h0, h1, h2]

theorem specScore_eq_matchNode (locator : FindLocator) (q : String)
    (n : SnapshotNode) : specScore locator q n = matchNode n locator q := by
  cases locator <;>
    simp [specScore, matchNode, specFieldScore_eq_matchText,
      specRoleScore_eq_matchRole]

theorem findGo_some (locator : FindLocator) (q : String) (rr : Bool)
    (nodes : List SnapshotNode) (b : SnapshotNode) :
    findNodeByLocatorGo locator q rr nodes (some (b, 1)) =
      match (nodes.filter (fun n => !(rr && n.rect.isNone))).find?
          (fun n => matchNode n locator q == 2) with
      | some n => some n
      | none => some b := by
  induction nodes with
  | nil => simp [findNodeByLocatorGo]
  | cons n rest ih =>
      by_cases hskip : (rr : Prop) ∧ n.rect = none
      · have hfilter : (!(rr && n.rect.isNone)) = false := by
          simp [hskip.1, hskip.2]
        simp only [findNodeByLocatorGo, if_pos hskip, List.filter_cons,
          hfilter]
        simpa using ih
      · have hfilter : (!(rr && n.rect.isNone)) = true := by
          cases hrect : n.rect with
          | none =>
              rcases Bool.eq_false_or_eq_true rr with h | h
              · exact absurd ⟨h, hrect⟩ hskip
              · simp [h]
          | some r => simp [hrect]
        have hs : matchNode n locator q = 0 ∨ matchNode n locator q = 1 ∨
            matchNode n locator q = 2 := by
          have := matchNode_le_two n locator q
          omega
        rcases hs with hs | hs | hs
        · simp only [findNodeByLocatorGo, if_neg hskip, List.filter_cons,
            hfilter, List.find?, hs]
          simpa using ih
        · simp only [findNodeByLocatorGo, if_neg hskip, List.filter_cons,
            hfilter, List.find?, hs]
          simpa using ih
        · simp only [findNodeByLocatorGo, if_neg hskip, List.filter_cons,
            hfilter, List.find?, hs]
          simp

theorem findGo_none (locator : FindLocator) (q : String) (rr : Bool)
    (nodes : List SnapshotNode) :
    findNodeByLocatorGo locator q rr nodes none =
      match (nodes.filter (fun n => !(rr && n.rect.isNone))).find?
          (fun n => matchNode n locator q == 2) with
      | some n => some n
      | none => (nodes.filter (fun n => !(rr && n.rect.isNone))).find?
          (fun n => matchNode n locator q == 1) := by
  induction nodes with
  | nil => simp [findNodeByLocatorGo]
  | cons n rest ih =>
      by_cases hskip : (rr : Prop) ∧ n.rect = none
      · have hfilter : (!(rr && n.rect.isNone)) = false := by
          simp [hskip.1, hskip.2]
        simp only [findNodeByLocatorGo, if_pos hskip, List.filter_cons,
          hfilter]
        simpa using ih
      · have hfilter : (!(rr && n.rect.isNone)) = true := by
          cases hrect : n.rect with
          | none =>
              rcases Bool.eq_false_or_eq_true rr with h | h
              · exact absurd ⟨h, hrect⟩ hskip
              · simp [h]
          | some r => simp [hrect]
        have hs : matchNode n locator q = 0 ∨ matchNode n locator q = 1 ∨
            matchNode n locator q = 2 := by
          have := matchNode_le_two n locator q
          omega
        rcases hs with hs | hs | hs
        · simp only [findNodeByLocatorGo, if_neg hskip, List.filter_cons,
            hfilter, List.find?, hs]
          simpa using ih
        · simp only [findNodeByLocatorGo, if_neg hskip, List.filter_cons,
            hfilter, List.find?, hs]
          simp only [show ((1 : Nat) == 2) = false by decide,
            show ((1 : Nat) == 1) = true by decide]
          simpa using findGo_some locator q rr rest n
        · simp only [findNodeByLocatorGo, if_neg hskip, List.filter_cons,
            hfilter, List.find?, hs]
          simp

/-! ## Claim C5 -/

/-- C5: `findNodeByLocator` realizes exactly the selection rule stated by
the spec: per-node scoring (exact normalized match = 2, substring = 1, else
0; `any`/`text` the max over label/value/identifier; `role` against the
normalized type; `label`/`value`/`id` the single field), scanning in order,
skipping rect-less nodes under `requireRect`, returning the first node
scoring 2 (short-circuit, so the first exact match wins), otherwise the
first-seen highest-scoring substring candidate, and `none` when no node
scores above 0. -/
theorem c5_findNodeByLocator_eq_spec (nodes : List SnapshotNode)
    (locator : FindLocator) (query : String) (requireRect : Bool) :
    findNodeByLocator nodes locator query requireRect =
      findNodeByLocatorSpec nodes locator query requireRect := by
  unfold findNodeByLocator findNodeByLocatorSpec
  dsimp only
  by_cases hq : normalizeText query = ""
  · simp [hq]
  · simp only [if_neg hq]
    rw [findGo_none]
    simp only [specScore_eq_matchNode]

/-! ## Claim C10 -/

/-- C10: whenever the query normalizes to the empty string,
`findNodeByLocator` returns `none` for every node list, locator mode and
option — the node list is never examined. -/
theorem c10_empty_query_returns_none (nodes : List SnapshotNode)
    (locator : FindLocator) (query : String) (requireRect : Bool)
    (h : normalizeText query = "") :
    findNodeByLocator nodes locator query requireRect = none := by
  unfold findNodeByLocator
  simp [h]

theorem c10_empty_query_returns_none_witness :
    normalizeText "   " = "" ∧
      findNodeByLocator [{ label := some "camera" }] FindLocator.any "   "
        false = none :=
  ⟨by decide,
   c10_empty_query_returns_none [{ label := some "camera" }] FindLocator.any
     "   " false (by decide)⟩

/-! ## Claim C4 -/

theorem withRetryGo_count_le {ε α : Type} (fn : Nat → Except ε α)
    (sr : Option (ε → Nat → Bool)) (attempts : Nat) :
    ∀ fuel attempt, (withRetryGo fn sr attempts attempt fuel).2 ≤ fuel := by
  intro fuel
  induction fuel with
  | zero => intro attempt; simp [withRetryGo]
  | succ f ih =>
      intro attempt
      simp only [withRetryGo]
      cases fn attempt with
      | ok v => simp
      | error e =>
          by_cases h : attempts ≤ attempt
          · simp [h]
          · simp only [if_neg h]
            cases sr with
            | none =>
                simpa using Nat.succ_le_succ (ih (attempt + 1))
            | some p =>
                by_cases hp : p e attempt = true
                · simpa [hp] using Nat.succ_le_succ (ih (attempt + 1))
                · simp [hp]

theorem withRetryGo_all_fail {ε α : Type} (fn : Nat → Except ε α)
    (p : ε → Nat → Bool) (attempts : Nat) (es : Nat → ε)
    (hfn : ∀ k, fn k = .error (es k))
    (hp : ∀ k, k < attempts → p (es k) k = true) :
    ∀ fuel attempt, 1 ≤ attempt → attempt ≤ attempts →
      attempts + 1 = attempt + fuel →
      withRetryGo fn (some p) attempts attempt fuel =
        (.error (some (es attempts)), fuel) := by
  intro fuel
  induction fuel with
  | zero => intro attempt h1 h2 h3; omega
  | succ f ih =>
      intro attempt h1 h2 h3
      simp only [withRetryGo, hfn attempt]
      by_cases hle : attempts ≤ attempt
      · have heq : attempt = attempts := by omega
        have hf : f = 0 := by omega
        subst heq hf
        simp
      · have hlt : attempt < attempts := by omega
        simp only [if_neg hle, hp attempt hlt, if_pos rfl]
        rw [ih (attempt + 1) (by omega) (by omega) (by omega)]
        simp

/-- C4: `withRetry` invokes the operation at most `attempts` times; when
every attempt fails and `shouldRetry` keeps allowing retries, the final
attempt's error propagates after exactly `attempts` invocations; an
operation failing twice then succeeding under `attempts = 3` with an
always-true `shouldRetry` yields the success in exactly 3 calls;
`shouldRetry` returning false on the error of attempt 1 yields exactly 1
call and that error; with `attempts = 0` the generic retry-exhausted error
is raised without any invocation. -/
theorem c4_withRetry_behavior :
    (∀ (ε α : Type) (fn : Nat → Except ε α) (sr : Option (ε → Nat → Bool))
        (attempts : Nat), (withRetry fn sr attempts).2 ≤ attempts) ∧
    (∀ (ε α : Type) (fn : Nat → Except ε α) (p : ε → Nat → Bool)
        (es : Nat → ε) (attempts : Nat), 1 ≤ attempts →
        (∀ k, fn k = .error (es k)) →
        (∀ k, k < attempts → p (es k) k = true) →
        withRetry fn (some p) attempts =
          (.error (some (es attempts)), attempts)) ∧
    (∀ (ε α : Type) (fn : Nat → Except ε α) (p : ε → Nat → Bool)
        (e1 e2 : ε) (v : α), fn 1 = .error e1 → fn 2 = .error e2 →
        fn 3 = .ok v → (∀ e k, p e k = true) →
        withRetry fn (some p) 3 = (.ok v, 3)) ∧
    (∀ (ε α : Type) (fn : Nat → Except ε α) (p : ε → Nat → Bool) (e : ε)
        (attempts : Nat), 1 ≤ attempts → fn 1 = .error e → p e 1 = false →
        withRetry fn (some p) attempts = (.error (some e), 1)) ∧
    (∀ (ε α : Type) (fn : Nat → Except ε α) (sr : Option (ε → Nat → Bool)),
        withRetry fn sr 0 = (.error none, 0)) := by
  refine ⟨?_, ?_, ?_, ?_, ?_⟩
  · intro ε α fn sr attempts
    unfold withRetry
    by_cases h : attempts = 0
    · simp [h]
    · simp only [if_neg h]
      exact withRetryGo_count_le fn sr attempts attempts 1
  · intro ε α fn p es attempts h1 hfn hp
    unfold withRetry
    rw [if_neg (by omega)]
    exact withRetryGo_all_fail fn p attempts es hfn hp attempts 1 (by omega)
      (by omega) (by omega)
  · intro ε α fn p e1 e2 v h1 h2 h3 hp
    unfold withRetry
    norm_num
    simp only [withRetryGo, h1, h2, h3, hp]
    norm_num
  · intro ε α fn p e attempts h1 hfn hp
    unfold withRetry
    rw [if_neg (by omega)]
    cases attempts with
    | zero => omega
    | succ n =>
        simp only [withRetryGo, hfn]
        by_cases hle : n + 1 ≤ 1
        · simp [hle]
        · simp [hle, hp]
  · intro ε α fn sr
    simp [withRetry]

theorem c4_withRetry_behavior_witness :
    withRetry (fun k => if k < 3 then Except.error k else Except.ok 42)
        (some (fun _ _ => true)) 3 = (.ok 42, 3) ∧
    withRetry (fun k => (Except.error k : Except Nat Nat))
        (some (fun _ _ => true)) 2 = (.error (some 2), 2) ∧
    withRetry (fun k => (Except.error k : Except Nat Nat))
        (some (fun _ _ => false)) 3 = (.error (some 1), 1) ∧
    withRetry (fun k => (Except.error k : Except Nat Nat))
        (some (fun _ _ => true)) 0 = (.error none, 0) :=
  ⟨c4_withRetry_behavior.2.2.1 Nat Nat _ _ 1 2 42 rfl rfl rfl
      (fun _ _ => rfl),
   c4_withRetry_behavior.2.1 Nat Nat _ _ (fun k => k) 2 (by omega)
      (fun _ => rfl) (fun _ _ => rfl),
   c4_withRetry_behavior.2.2.2.1 Nat Nat _ _ 1 3 (by omega) rfl rfl,
   c4_withRetry_behavior.2.2.2.2 Nat Nat _ _⟩

/-! ## Claim C6 -/

/-- C6: for each attempt `n ≥ 1` the computed backoff delay is
`exp = min(maxDelay, base * 2^(n-1))` perturbed by an offset of magnitude
at most `exp * jitter` and clamped below at zero, hence lies within
`[max(0, exp * (1 - jitter)), exp * (1 + jitter)]`. -/
theorem c6_computeDelay_bounds (base maxDelay jitter rand : ℚ) (attempt : Nat)
    (hbase : 0 ≤ base) (hmax : 0 ≤ maxDelay) (hjit : 0 ≤ jitter)
    (hr0 : 0 ≤ rand) (hr1 : rand < 1) (_hatt : 1 ≤ attempt) :
    (∃ off : ℚ, |off| ≤ min maxDelay (base * 2 ^ (attempt - 1)) * jitter ∧
        computeDelay base maxDelay jitter attempt rand =
          max 0 (min maxDelay (base * 2 ^ (attempt - 1)) + off)) ∧
    max 0 (min maxDelay (base * 2 ^ (attempt - 1)) * (1 - jitter)) ≤
        computeDelay base maxDelay jitter attempt rand ∧
    computeDelay base maxDelay jitter attempt rand ≤
        min maxDelay (base * 2 ^ (attempt - 1)) * (1 + jitter) := by
  have hexp : 0 ≤ min maxDelay (base * 2 ^ (attempt - 1)) :=
    le_min hmax (by positivity)
  set E := min maxDelay (base * 2 ^ (attempt - 1)) with hE
  have hja : 0 ≤ E * jitter := mul_nonneg hexp hjit
  have hoff_up : (rand * 2 - 1) * (E * jitter) ≤ E * jitter := by
    nlinarith
  have hoff_lo : -(E * jitter) ≤ (rand * 2 - 1) * (E * jitter) := by
    nlinarith
  have hdelay : computeDelay base maxDelay jitter attempt rand =
      max 0 (E + (rand * 2 - 1) * (E * jitter)) := rfl
  refine ⟨⟨(rand * 2 - 1) * (E * jitter),
      abs_le.mpr ⟨by linarith, hoff_up⟩, hdelay⟩, ?_, ?_⟩
  · rw [hdelay]
    have : E * (1 - jitter) ≤ E + (rand * 2 - 1) * (E * jitter) := by
      nlinarith
    exact max_le_max (le_refl 0) this
  · rw [hdelay]
    have h1 : E + (rand * 2 - 1) * (E * jitter) ≤ E * (1 + jitter) := by
      nlinarith
    have h2 : (0 : ℚ) ≤ E * (1 + jitter) := by nlinarith
    exact max_le h2 h1

theorem c6_computeDelay_bounds_witness :
    max 0 (min (2000 : ℚ) (200 * 2 ^ (1 - 1)) * (1 - 1/5)) ≤
        computeDelay 200 2000 (1/5) 1 (1/2) ∧
    computeDelay 200 2000 (1/5) 1 (1/2) ≤
        min (2000 : ℚ) (200 * 2 ^ (1 - 1)) * (1 + 1/5) :=
  ⟨(c6_computeDelay_bounds 200 2000 (1/5) (1/2) 1 (by norm_num)
      (by norm_num) (by norm_num) (by norm_num) (by norm_num)
      (by norm_num)).2.1,
   (c6_computeDelay_bounds 200 2000 (1/5) (1/2) 1 (by norm_num)
      (by norm_num) (by norm_num) (by norm_num) (by norm_num)
      (by norm_num)).2.2⟩

/-! ## Claim C7 -/

theorem digitVal_digitChar (d : Nat) (h : d < 10) :
    digitVal (Nat.digitChar d) = d := by
  interval_cases d <;> rfl

theorem valOfDigits_append (l : List Char) (c : Char) :
    valOfDigits (l ++ [c]) = valOfDigits l * 10 + digitVal c := by
  unfold valOfDigits
  rw [List.foldl_append]
  rfl

theorem valOfDigits_decDigits (n : Nat) : valOfDigits (decDigits n) = n := by
  induction n using Nat.strong_induction_on with
  | _ n ih =>
      unfold decDigits
      split_ifs with h
      · simp [valOfDigits, List.foldl, digitVal_digitChar n h]
      · rw [valOfDigits_append,
          ih (n / 10) (Nat.div_lt_self (by omega) (by omega)),
          digitVal_digitChar (n % 10) (Nat.mod_lt _ (by omega))]
        omega

theorem decDigits_injective : Function.Injective decDigits := by
  intro a b h
  have h2 := congrArg valOfDigits h
  simpa [valOfDigits_decDigits] using h2

theorem toDigitsCore_eq_decDigits :
    ∀ (fuel n : Nat) (ds : List Char), n < fuel →
      Nat.toDigitsCore 10 fuel n ds = decDigits n ++ ds := by
  intro fuel
  induction fuel with
  | zero => intro n ds h; omega
  | succ f ih =>
      intro n ds h
      unfold Nat.toDigitsCore
      dsimp only
      by_cases h10 : n / 10 = 0
      · have hn : n < 10 := by omega
        rw [if_pos h10]
        rw [decDigits, if_pos hn, Nat.mod_eq_of_lt hn]
        rfl
      · have hn : ¬ n < 10 := by
          intro hc
          exact h10 (Nat.div_eq_of_lt hc)
        rw [if_neg h10]
        have hdivlt : n / 10 < f := by
          have hlt : n / 10 < n := Nat.div_lt_self (by omega) (by omega)
          omega
        rw [ih (n / 10) (Nat.digitChar (n % 10) :: ds) hdivlt]
        conv_rhs => rw [decDigits]
        rw [if_neg hn]
        simp

theorem natRepr_eq_decDigits (n : Nat) :
    Nat.repr n = (decDigits n).asString := by
  show (Nat.toDigits 10 n).asString = (decDigits n).asString
  unfold Nat.toDigits
  rw [toDigitsCore_eq_decDigits (n + 1) n [] (by omega)]
  simp

theorem natRepr_injective : Function.Injective Nat.repr := by
  intro a b h
  rw [natRepr_eq_decDigits, natRepr_eq_decDigits] at h
  apply decDigits_injective
  have h2 := congrArg String.data h
  simpa [List.asString] using h2

theorem refOfIndex_injective : Function.Injective refOfIndex := by
  intro a b h
  apply natRepr_injective
  have h2 := congrArg String.data h
  have h3 : "e".data ++ (Nat.repr a).data = "e".data ++ (Nat.repr b).data := by
    simpa [refOfIndex, String.data_append] using h2
  have h4 : (Nat.repr a).data = (Nat.repr b).data :=
    List.append_cancel_left h3
  exact String.ext h4

theorem attachRefsGo_get? (k : Nat) (nodes : List SnapshotNode) (i : Nat) :
    (attachRefsGo k nodes).get? i =
      (nodes.get? i).map
        (fun n => { n with ref := some (refOfIndex (k + i)) }) := by
  induction nodes generalizing k i with
  | nil => simp [attachRefsGo]
  | cons n rest ih =>
      cases i with
      | zero => simp [attachRefsGo]
      | succ j =>
          simp only [attachRefsGo, List.get?]
          rw [ih (k + 1) j]
          have : k + 1 + j = k + (j + 1) := by omega
          rw [this]

theorem attachRefs_idem (nodes : List SnapshotNode) :
    attachRefs (attachRefs nodes) = attachRefs nodes := by
  unfold attachRefs
  generalize 0 = k
  induction nodes generalizing k with
  | nil => simp [attachRefsGo]
  | cons n rest ih => simp [attachRefsGo, ih (k + 1)]

theorem findNodeByRef_attachRefsGo (k : Nat) (nodes : List SnapshotNode)
    (i : Nat) (h : i < nodes.length) :
    findNodeByRef (attachRefsGo k nodes) (refOfIndex (k + i)) =
      (attachRefsGo k nodes).get? i := by
  induction nodes generalizing k i with
  | nil => simp at h
  | cons n rest ih =>
      cases i with
      | zero =>
          simp [findNodeByRef, attachRefsGo, List.find?]
      | succ j =>
          simp only [findNodeByRef, attachRefsGo, List.find?]
          have hkj : k + (j + 1) = k + 1 + j := by omega
          rw [hkj]
          have hne : ((some (refOfIndex k) : Option String) ==
              some (refOfIndex (k + 1 + j))) = false := by
            rw [beq_eq_false_iff_ne]
            intro hc
            have h5 := refOfIndex_injective (Option.some.inj hc)
            omega
          simp only [hne]
          have hlen : j < rest.length := by simpa using h
          simpa [findNodeByRef, List.get?_cons_succ] using ih (k + 1) j hlen

/-- C7: `attachRefs` assigns `ref = "e" + positionalIndex` to every node in
order and is idempotent under a stable input order; `findNodeByRef` applied
to a ref produced by `attachRefs` returns exactly the node at that position
(round-trip); `normalizeRef` accepts a ref with or without a leading `@`,
and returns `none` for the empty string. -/
theorem c7_refs_roundtrip :
    (∀ (nodes : List SnapshotNode) (i : Nat),
        (attachRefs nodes).get? i =
          (nodes.get? i).map
            (fun n => { n with ref := some (refOfIndex i) })) ∧
    (∀ nodes : List SnapshotNode,
        attachRefs (attachRefs nodes) = attachRefs nodes) ∧
    (∀ (nodes : List SnapshotNode) (i : Nat), i < nodes.length →
        findNodeByRef (attachRefs nodes) (refOfIndex i) =
          (attachRefs nodes).get? i) ∧
    (normalizeRef "@e3" = some "e3" ∧ normalizeRef "e3" = some "e3" ∧
      normalizeRef "" = none) := by
  refine ⟨?_, attachRefs_idem, ?_, by decide, by decide, by decide⟩
  · intro nodes i
    have := attachRefsGo_get? 0 nodes i
    simpa [attachRefs] using this
  · intro nodes i h
    have := findNodeByRef_attachRefsGo 0 nodes i h
    simpa [attachRefs] using this

theorem c7_refs_roundtrip_witness :
    findNodeByRef (attachRefs [{ label := some "a" }, { label := some "b" }])
        (refOfIndex 1) =
      (attachRefs [{ label := some "a" }, { label := some "b" }]).get? 1 :=
  c7_refs_roundtrip.2.2.1 [{ label := some "a" }, { label := some "b" }] 1
    (by decide)

/-! ## Claim C8 -/

/-- C8: `snapshotAx` on any device that is not an iOS simulator fails with
the unsupported-operation error and zero helper spawns, identically for
every environment (so before, and independently of, any external process);
for an iOS-simulator device the guard passes and the capture pipeline
runs. -/
theorem c8_snapshotAx_guard (device : DeviceInfo) (env : AxEnv) :
    (¬ (device.platform = "ios" ∧ device.kind = "simulator") →
        snapshotAx device env = (.error unsupportedAxError, 0)) ∧
    (device.platform = "ios" ∧ device.kind = "simulator" →
        snapshotAx device env = snapshotAxAfterGuard env) := by
  constructor
  · intro h
    simp [snapshotAx, h]
  · intro h
    simp [snapshotAx, h]

theorem c8_snapshotAx_guard_witness :
    snapshotAx ⟨"ios", "device", "iPhone", "U1"⟩
        ⟨.ok "bin", fun _ => ⟨0, "", ""⟩, fun _ => none⟩ =
      (.error unsupportedAxError, 0) ∧
    snapshotAx ⟨"ios", "simulator", "iPhone", "U1"⟩
        ⟨.ok "bin", fun _ => ⟨0, "", ""⟩, fun _ => none⟩ =
      snapshotAxAfterGuard ⟨.ok "bin", fun _ => ⟨0, "", ""⟩, fun _ => none⟩ :=
  ⟨(c8_snapshotAx_guard ⟨"ios", "device", "iPhone", "U1"⟩ _).1 (by simp),
   (c8_snapshotAx_guard ⟨"ios", "simulator", "iPhone", "U1"⟩ _).2 (by simp)⟩

/-! ## Claim C9 -/

theorem isRetryableError_axAttemptError (r : RunResult) :
    isRetryableError (axAttemptError r) = isRetryableAxError r.stderr := by
  simp [isRetryableError, axAttemptError]

theorem withRetryGo_count_pos {ε α : Type} (fn : Nat → Except ε α)
    (sr : Option (ε → Nat → Bool)) (attempts attempt fuel : Nat) :
    1 ≤ (withRetryGo fn sr attempts attempt (fuel + 1)).2 := by
  simp only [withRetryGo]
  cases fn attempt with
  | ok v => simp
  | error e =>
      by_cases h : attempts ≤ attempt
      · simp [h]
      · simp only [if_neg h]
        cases sr with
        | none => simp
        | some p =>
            by_cases hp : p e attempt = true
            · simp [hp]
            · simp [hp]

/-- C9: a failed AX attempt raises a `COMMAND_FAILED` error whose
`retryable` flag equals the transient-marker test on the helper's stderr,
and the retry predicate consults exactly that flag; a first-attempt failure
without a transient marker (e.g. a permission failure) propagates after
exactly one spawn; with a transient marker a second spawn happens; a decode
failure of a successful run's output is raised as the fatal invalid-JSON
error outside the loop, after the single spawn, and that error is not
retryable. -/
theorem c9_ax_retry_classification (env : AxEnv) :
    (∀ r : RunResult, isRetryableError (axAttemptError r) =
        isRetryableAxError r.stderr) ∧
    (∀ p : String, env.binary = .ok p → (env.run 1).exitCode ≠ 0 →
        isRetryableAxError (env.run 1).stderr = false →
        snapshotAxAfterGuard env = (.error (axAttemptError (env.run 1)), 1)) ∧
    (∀ p : String, env.binary = .ok p → (env.run 1).exitCode ≠ 0 →
        isRetryableAxError (env.run 1).stderr = true →
        2 ≤ (snapshotAxAfterGuard env).2) ∧
    (∀ p : String, env.binary = .ok p → (env.run 1).exitCode = 0 →
        env.decode (env.run 1).stdout = none →
        snapshotAxAfterGuard env = (.error invalidAxJsonError, 1)) ∧
    isRetryableError invalidAxJsonError = false := by
  have hthree : (3 : Nat) = 2 + 1 := rfl
  have htwo : (2 : Nat) = 1 + 1 := rfl
  refine ⟨isRetryableError_axAttemptError, ?_, ?_, ?_, by decide⟩
  · intro p hb hexit hretry
    have hfn : axAttempt env 1 = .error (axAttemptError (env.run 1)) := by
      simp [axAttempt, hexit]
    have hsr : isRetryableError (axAttemptError (env.run 1)) = false := by
      rw [isRetryableError_axAttemptError, hretry]
    have hcall : withRetry (axAttempt env)
        (some (fun e _ => isRetryableError e)) 3 =
          (.error (some (axAttemptError (env.run 1))), 1) := by
      unfold withRetry
      rw [if_neg (by norm_num), hthree]
      simp only [withRetryGo, hfn, hsr]
      norm_num
    simp only [snapshotAxAfterGuard, hb, hcall]
  · intro p hb hexit hretry
    have hfn : axAttempt env 1 = .error (axAttemptError (env.run 1)) := by
      simp [axAttempt, hexit]
    have hsr : isRetryableError (axAttemptError (env.run 1)) = true := by
      rw [isRetryableError_axAttemptError, hretry]
    have hcall : 2 ≤ (withRetry (axAttempt env)
        (some (fun e _ => isRetryableError e)) 3).2 := by
      unfold withRetry
      rw [if_neg (by norm_num), hthree]
      simp only [withRetryGo, hfn, hsr]
      norm_num
      cases h2 : axAttempt env 2 with
      | ok v => simp [h2]
      | error e2 =>
          simp only [h2]
          by_cases hp2 : isRetryableError e2 = true
          · simp only [hp2, if_pos]
            omega
          · simp [hp2]
    simp only [snapshotAxAfterGuard, hb]
    cases hr : (withRetry (axAttempt env)
        (some (fun e _ => isRetryableError e)) 3).1 with
    | error oe =>
        cases oe with
        | none => simpa [hr] using hcall
        | some e => simpa [hr] using hcall
    | ok r =>
        cases hdec : decodeAxPayload env.decode r.stdout with
        | error e => simpa [hr, hdec] using hcall
        | ok tr => simpa [hr, hdec] using hcall
  · intro p hb hexit hdec
    have hfn : axAttempt env 1 = .ok (env.run 1) := by
      simp [axAttempt, hexit]
    have hcall : withRetry (axAttempt env)
        (some (fun e _ => isRetryableError e)) 3 = (.ok (env.run 1), 1) := by
      unfold withRetry
      rw [if_neg (by norm_num), hthree]
      simp only [withRetryGo, hfn]
    simp only [snapshotAxAfterGuard, hb, hcall, decodeAxPayload, hdec]

theorem c9_ax_retry_classification_witness :
    snapshotAxAfterGuard
        ⟨.ok "bin", fun _ => ⟨1, "", "permission denied"⟩, fun _ => none⟩ =
      (.error (axAttemptError ⟨1, "", "permission denied"⟩), 1) ∧
    2 ≤ (snapshotAxAfterGuard
        ⟨.ok "bin", fun _ => ⟨1, "", "timeout waiting"⟩, fun _ => none⟩).2 ∧
    snapshotAxAfterGuard
        ⟨.ok "bin", fun _ => ⟨0, "bogus", ""⟩, fun _ => none⟩ =
      (.error invalidAxJsonError, 1) :=
  ⟨(c9_ax_retry_classification
      ⟨.ok "bin", fun _ => ⟨1, "", "permission denied"⟩, fun _ => none⟩).2.1
      "bin" rfl (by decide) (by decide),
   (c9_ax_retry_classification
      ⟨.ok "bin", fun _ => ⟨1, "", "timeout waiting"⟩, fun _ => none⟩).2.2.1
      "bin" rfl (by decide) (by decide),
   (c9_ax_retry_classification
      ⟨.ok "bin", fun _ => ⟨0, "bogus", ""⟩, fun _ => none⟩).2.2.2.1
      "bin" rfl (by decide) rfl⟩

/-! ## Claim C1 -/

theorem addBack_subtract (rf : Rect) (fr : Option Rect) :
    addBackFrame rf (subtractFrame (some rf) fr) = fr := by
  cases fr with
  | none => rfl
  | some f => simp [addBackFrame, subtractFrame, sub_add_cancel]

theorem walkAx_addBack (rf : Rect) (t : AXNode) :
    (walkAx (some rf) t).map
        (fun n => { n with frame := addBackFrame rf n.frame }) =
      axOriginalNodes t := by
  unfold walkAx axOriginalNodes
  rw [List.map_map]
  apply List.map_congr_left
  intro p _
  cases p with
  | mk a d =>
      cases a with
      | node r s l v i fr cs =>
          simp [flatOfRaw, Function.comp, addBack_subtract]

theorem walkAx_width_height (rf : Option Rect) (t : AXNode) :
    (walkAx rf t).map
        (fun n => (n.frame.map Rect.width, n.frame.map Rect.height)) =
      (axOriginalNodes t).map
        (fun n => (n.frame.map Rect.width, n.frame.map Rect.height)) := by
  unfold walkAx axOriginalNodes
  rw [List.map_map, List.map_map]
  apply List.map_congr_left
  intro p _
  cases p with
  | mk a d =>
      cases a with
      | node r s l v i fr cs =>
          cases fr with
          | none => cases rf <;> simp [flatOfRaw, subtractFrame, Function.comp]
          | some f => cases rf <;> simp [flatOfRaw, subtractFrame, Function.comp]

/-- C1 (amended): with a known root/origin frame and at least one sampled
node frame, the normalizer adds the origin back (recovering every node's
originally reported frame) exactly when the minimum of the sampled
(pre-subtraction) frames' (x, y) is within 5 px of zero in both axes;
otherwise (minimum greater than 5 px in either axis) the subtracted
window-relative coordinates are kept.  Widths and heights are unchanged in
either branch. -/
theorem c1_normalizeFrames_amended (tree : AXNode) (originFrame : Option Rect)
    (rf : Rect) (f : Rect) (fs : List Rect)
    (hrf : rootFrameOf tree originFrame = some rf)
    (hsamples : axFrameSamples tree = f :: fs) :
    (axNormalizedNodes tree originFrame =
      if (f :: fs).foldl (fun m fr => min m fr.x) f.x ≤ 5 ∧
          (f :: fs).foldl (fun m fr => min m fr.y) f.y ≤ 5 then
        axOriginalNodes tree
      else walkAx (some rf) tree) ∧
    (axNormalizedNodes tree originFrame).map
        (fun n => (n.frame.map Rect.width, n.frame.map Rect.height)) =
      (axOriginalNodes tree).map
        (fun n => (n.frame.map Rect.width, n.frame.map Rect.height)) := by
  have hmain : axNormalizedNodes tree originFrame =
      if (f :: fs).foldl (fun m fr => min m fr.x) f.x ≤ 5 ∧
          (f :: fs).foldl (fun m fr => min m fr.y) f.y ≤ 5 then
        axOriginalNodes tree
      else walkAx (some rf) tree := by
    unfold axNormalizedNodes
    rw [hrf, hsamples]
    unfold normalizeFrames
    dsimp only
    split_ifs with hcond
    · exact walkAx_addBack rf tree
    · rfl
  refine ⟨hmain, ?_⟩
  rw [hmain]
  split_ifs with hcond
  · rfl
  · exact walkAx_width_height (some rf) tree

theorem c1_normalizeFrames_amended_witness :
    axNormalizedNodes
        (AXNode.node none none none none none none
          [AXNode.node none none none none none (some ⟨0, 0, 7, 9⟩) []])
        (some ⟨100, 100, 300, 300⟩) =
      (if ([(⟨0, 0, 7, 9⟩ : Rect)]).foldl (fun m fr => min m fr.x)
            (0 : ℚ) ≤ 5 ∧
          ([(⟨0, 0, 7, 9⟩ : Rect)]).foldl (fun m fr => min m fr.y)
            (0 : ℚ) ≤ 5 then
        axOriginalNodes
          (AXNode.node none none none none none none
            [AXNode.node none none none none none (some ⟨0, 0, 7, 9⟩) []])
      else
        walkAx (some ⟨100, 100, 300, 300⟩)
          (AXNode.node none none none none none none
            [AXNode.node none none none none none (some ⟨0, 0, 7, 9⟩) []])) :=
  (c1_normalizeFrames_amended
    (AXNode.node none none none none none none
      [AXNode.node none none none none none (some ⟨0, 0, 7, 9⟩) []])
    (some ⟨100, 100, 300, 300⟩) ⟨100, 100, 300, 300⟩ ⟨0, 0, 7, 9⟩ []
    rfl (by simp [axFrameSamples, flattenAx, flattenAxList, AXNode.frame])).1

/-- C1 counterexample: a capture whose origin frame is (10, 10) and whose
single sampled node frame is (20, 40) — the minimum sampled (x, y) exceeds
5 px in both axes (and so does the subtracted rect (10, 30)), yet
normalization keeps the subtracted window-relative coordinates instead of
adding the origin frame back as the claim states. -/
theorem c1_counterexample :
    axFrameSamples
        (AXNode.node none none none none none none
          [AXNode.node none none none none none (some ⟨20, 40, 7, 9⟩) []]) =
      [⟨20, 40, 7, 9⟩] ∧
    ((5 : ℚ) < 20 ∧ (5 : ℚ) < 40) ∧
    (axNormalizedNodes
        (AXNode.node none none none none none none
          [AXNode.node none none none none none (some ⟨20, 40, 7, 9⟩) []])
        (some ⟨10, 10, 300, 300⟩)).map (fun n => n.frame) =
      [none, some ⟨10, 30, 7, 9⟩] ∧
    (axNormalizedNodes
        (AXNode.node none none none none none none
          [AXNode.node none none none none none (some ⟨20, 40, 7, 9⟩) []])
        (some ⟨10, 10, 300, 300⟩)).map (fun n => n.frame) ≠
      (axOriginalNodes
        (AXNode.node none none none none none none
          [AXNode.node none none none none none (some ⟨20, 40, 7, 9⟩) []])).map
        (fun n => n.frame) := by
  have hs : axFrameSamples
      (AXNode.node none none none none none none
        [AXNode.node none none none none none (some ⟨20, 40, 7, 9⟩) []]) =
      [⟨20, 40, 7, 9⟩] := by
    simp [axFrameSamples, flattenAx, flattenAxList, AXNode.frame]
  refine ⟨hs, by norm_num, ?_, ?_⟩
  · norm_num [axNormalizedNodes, hs, normalizeFrames, walkAx, flattenAx,
      flattenAxList, flatOfRaw, subtractFrame, addBackFrame, rootFrameOf,
      AXNode.frame]
  · norm_num [axNormalizedNodes, axOriginalNodes, hs, normalizeFrames,
      walkAx, flattenAx, flattenAxList, flatOfRaw, subtractFrame,
      addBackFrame, rootFrameOf, AXNode.frame]

/-! ## Claim C2 -/

/-- C2 (amended): for a `close` request on an existing session, when the
app-close sub-step is skipped (no positionals) or succeeds, the daemon
stops the iOS-simulator runner (when applicable) before removing the
session entry and responds ok; but when the dispatched platform `close`
command fails, the error propagates and the session entry is retained —
removal is **not** unconditional. -/
theorem c2_close_behavior (tok : String) (env : DaemonEnv)
    (sessions : List (String × SessionState)) (req : DaemonRequest)
    (name : String) (s : SessionState)
    (htok : req.token = tok)
    (hcmd : req.command = "close")
    (hname : (if req.session = "" then "default" else req.session) = name)
    (hsess : mapGet sessions name = some s) :
    ((req.positionals = [] ∨
        (∃ d, env.dispatch "close" req.positionals = .ok d)) →
      handleRequest tok env sessions req =
        (.ok (.ok (.sessionName name)), mapDelete sessions name,
          (if req.positionals ≠ [] then
            [DaemonEvent.dispatched "close" req.positionals] else []) ++
          (if s.device.platform = "ios" ∧ s.device.kind = "simulator" then
            [DaemonEvent.stoppedRunner s.device.id] else []) ++
          [DaemonEvent.sessionDeleted name])) ∧
    (∀ e, req.positionals ≠ [] →
      env.dispatch "close" req.positionals = .error e →
      handleRequest tok env sessions req =
        (.error e, sessions,
          [DaemonEvent.dispatched "close" req.positionals])) := by
  constructor
  · intro hok
    by_cases hpos : req.positionals = []
    · simp only [handleRequest, htok, hcmd, hname, hsess, hpos]
      simp
    · rcases hok with hpos2 | ⟨d, hdisp⟩
      · exact absurd hpos2 hpos
      · simp only [handleRequest, htok, hcmd, hname, hsess, hdisp]
        simp [hpos]
  · intro e hpos hdisp
    simp only [handleRequest, htok, hcmd, hname, hsess, hdisp]
    simp [hpos]

theorem c2_close_behavior_witness :
    handleRequest "t"
      { resolveDevice := .error { code := "COMMAND_FAILED", message := "x" },
        dispatch := fun _ _ => .ok none, resolveApp := none, now := 0 }
      [("default",
        { name := "default",
          device := ⟨"ios", "simulator", "iPhone", "U1"⟩, createdAt := 0 })]
      { token := "t", session := "", command := "close",
        positionals := ["app"] } =
      (.ok (.ok (.sessionName "default")), [],
        [DaemonEvent.dispatched "close" ["app"],
         DaemonEvent.stoppedRunner "U1",
         DaemonEvent.sessionDeleted "default"]) := by
  have h := (c2_close_behavior "t"
    { resolveDevice := .error { code := "COMMAND_FAILED", message := "x" },
      dispatch := fun _ _ => .ok none, resolveApp := none, now := 0 }
    [("default",
      { name := "default",
        device := ⟨"ios", "simulator", "iPhone", "U1"⟩, createdAt := 0 })]
    { token := "t", session := "", command := "close",
      positionals := ["app"] }
    "default"
    { name := "default", device := ⟨"ios", "simulator", "iPhone", "U1"⟩,
      createdAt := 0 }
    rfl rfl rfl (by rfl)).1 (Or.inr ⟨none, rfl⟩)
  simpa [mapDelete] using h

/-- C2 counterexample: with one open iOS-simulator session and a `close`
request naming an app, a failing dispatched `close` command makes the
handler throw and leaves the session entry in the map — the claim's
unconditional removal does not hold. -/
theorem c2_close_counterexample :
    handleRequest "t"
      { resolveDevice := .error { code := "COMMAND_FAILED", message := "x" },
        dispatch := fun _ _ =>
          .error { code := "COMMAND_FAILED", message := "close failed" },
        resolveApp := none, now := 0 }
      [("default",
        { name := "default",
          device := ⟨"ios", "simulator", "iPhone", "U1"⟩, createdAt := 0 })]
      { token := "t", session := "", command := "close",
        positionals := ["app"] } =
      (.error { code := "COMMAND_FAILED", message := "close failed" },
       [("default",
         { name := "default",
           device := ⟨"ios", "simulator", "iPhone", "U1"⟩, createdAt := 0 })],
       [DaemonEvent.dispatched "close" ["app"]]) ∧
    mapGet
      [("default",
        { name := "default",
          device := ⟨"ios", "simulator", "iPhone", "U1"⟩,
          createdAt := 0 })] "default" =
      some { name := "default",
             device := ⟨"ios", "simulator", "iPhone", "U1"⟩,
             createdAt := 0 } := by
  constructor
  · rfl
  · rfl

/-! ## Claim C3 -/

/-- C3 (amended): with no session under the resolved name, `click`,
`@`-ref `fill`, and `get` with a valid sub-command fail with
`INVALID_ARGS` "No snapshot in session. Run snapshot first."; `close`
fails with `SESSION_NOT_FOUND` "No active session"; every other
non-`session_list`/`open`/`snapshot` command (including non-`@` `fill`)
falls through to `SESSION_NOT_FOUND` "No active session. Run open first."
(none of these messages names the session, and none of these paths creates
or mutates a session entry); `snapshot`, however, does **not** require a
session: it resolves a target device and creates a session entry. -/
theorem c3_no_session_behavior (tok : String) (env : DaemonEnv)
    (sessions : List (String × SessionState)) (req : DaemonRequest)
    (name : String)
    (htok : req.token = tok)
    (hname : (if req.session = "" then "default" else req.session) = name)
    (hnone : mapGet sessions name = none) :
    (req.command = "click" →
      handleRequest tok env sessions req =
        (.ok (.err ⟨"INVALID_ARGS",
          "No snapshot in session. Run snapshot first."⟩), sessions, [])) ∧
    (req.command = "fill" →
      strStartsWith ((req.positionals.head?).getD "") "@" = true →
      handleRequest tok env sessions req =
        (.ok (.err ⟨"INVALID_ARGS",
          "No snapshot in session. Run snapshot first."⟩), sessions, [])) ∧
    (req.command = "get" →
      ((req.positionals.head?).getD "" = "text" ∨
        (req.positionals.head?).getD "" = "attrs") →
      handleRequest tok env sessions req =
        (.ok (.err ⟨"INVALID_ARGS",
          "No snapshot in session. Run snapshot first."⟩), sessions, [])) ∧
    (req.command = "close" →
      handleRequest tok env sessions req =
        (.ok (.err ⟨"SESSION_NOT_FOUND", "No active session"⟩),
         sessions, [])) ∧
    (req.command ∉
        ["session_list", "open", "close", "snapshot", "click", "get"] →
      (req.command = "fill" →
        strStartsWith ((req.positionals.head?).getD "") "@" = false) →
      handleRequest tok env sessions req =
        (.ok (.err ⟨"SESSION_NOT_FOUND",
          "No active session. Run open first."⟩), sessions, [])) ∧
    (req.command = "snapshot" → ∀ (dev : DeviceInfo) (d : Option JsonData),
      env.resolveDevice = .ok dev → env.dispatch "snapshot" [] = .ok d →
      handleRequest tok env sessions req =
        (.ok (.ok (.snapshotData (attachRefs ((d.map (fun j => j.nodes)).getD []))
            ((d.map (fun j => j.truncated)).getD false))),
         mapSet sessions name
           { name := name, device := dev, createdAt := env.now,
             appBundleId := none,
             snapshot := some
               { nodes := attachRefs ((d.map (fun j => j.nodes)).getD []),
                 truncated := d.map (fun j => j.truncated),
                 createdAt := env.now } },
         [DaemonEvent.dispatched "snapshot" [],
          DaemonEvent.sessionSet name])) := by
  refine ⟨?_, ?_, ?_, ?_, ?_, ?_⟩
  · intro hcmd
    simp only [handleRequest, htok, hcmd, hname, hnone]
    simp
  · intro hcmd hat
    simp only [handleRequest, htok, hcmd, hname, hnone, hat]
    simp
  · intro hcmd hsub
    rcases hsub with hsub | hsub <;>
      · simp only [handleRequest, htok, hcmd, hname, hnone, hsub]
        simp
  · intro hcmd
    simp only [handleRequest, htok, hcmd, hname, hnone]
    simp
  · intro hmem hfill
    simp only [List.mem_cons, List.mem_singleton] at hmem
    push_neg at hmem
    obtain ⟨h1, h2, h3, h4, h5, h6, -⟩ := hmem
    have hfc : ¬ (req.command = "fill" ∧
        strStartsWith ((req.positionals.head?).getD "") "@" = true) := by
      rintro ⟨hf, hat⟩
      rw [hfill hf] at hat
      exact Bool.false_ne_true hat
    simp only [handleRequest, htok, hname, hnone]
    rw [if_neg (by simp [htok])]
    rw [if_neg h1, if_neg h2, if_neg h3, if_neg h4, if_neg h5, if_neg hfc,
      if_neg h6]
  · intro hcmd dev d hres hdisp
    simp only [handleRequest, htok, hcmd, hname, hnone, hres, hdisp]
    simp

theorem c3_no_session_behavior_witness :
    handleRequest "t"
      { resolveDevice := .error { code := "COMMAND_FAILED", message := "x" },
        dispatch := fun _ _ => .ok none, resolveApp := none, now := 0 }
      [] { token := "t", session := "", command := "click",
           positionals := ["@e0"] } =
      (.ok (.err ⟨"INVALID_ARGS",
        "No snapshot in session. Run snapshot first."⟩), [], []) ∧
    handleRequest "t"
      { resolveDevice := .error { code := "COMMAND_FAILED", message := "x" },
        dispatch := fun _ _ => .ok none, resolveApp := none, now := 0 }
      [] { token := "t", session := "", command := "press",
           positionals := ["10", "20"] } =
      (.ok (.err ⟨"SESSION_NOT_FOUND",
        "No active session. Run open first."⟩), [], []) :=
  ⟨(c3_no_session_behavior "t"
      { resolveDevice := .error { code := "COMMAND_FAILED", message := "x" },
        dispatch := fun _ _ => .ok none, resolveApp := none, now := 0 }
      [] { token := "t", session := "", command := "click",
           positionals := ["@e0"] } "default" rfl rfl rfl).1 rfl,
   (c3_no_session_behavior "t"
      { resolveDevice := .error { code := "COMMAND_FAILED", message := "x" },
        dispatch := fun _ _ => .ok none, resolveApp := none, now := 0 }
      [] { token := "t", session := "", command := "press",
           positionals := ["10", "20"] } "default" rfl rfl
      rfl).2.2.2.2.1 (by decide) (fun hc => absurd hc (by decide))⟩

/-- C3 counterexample: a `snapshot` request with an empty session map does
not fail with a "no active session" error — it resolves a device, succeeds,
and creates a session entry. -/
theorem c3_counterexample :
    handleRequest "t"
      { resolveDevice := .ok ⟨"ios", "simulator", "iPhone", "U1"⟩,
        dispatch := fun _ _ => .ok (some { nodes := [], truncated := false }),
        resolveApp := none, now := 0 }
      [] { token := "t", session := "", command := "snapshot",
           positionals := [] } =
      (.ok (.ok (.snapshotData [] false)),
       [("default",
         { name := "default",
           device := ⟨"ios", "simulator", "iPhone", "U1"⟩,
           createdAt := 0, appBundleId := none,
           snapshot := some { nodes := [], truncated := some false,
                              createdAt := 0 } })],
       [DaemonEvent.dispatched "snapshot" [],
        DaemonEvent.sessionSet "default"]) := by
  rfl

end AgentDevice
